import Mathlib

/-!
Shallow embedding of `mcp_time_server.py` and `mcp_ollama_client.py`.

JSON payloads are modelled by the inductive `Json` (ints stand in for JSON
numbers; floats do not occur in this program).  Network I/O is modelled by a
`Transport` value: either a raised `requests.exceptions.RequestException`
(`netError`) or an HTTP response carrying a status code and an
already-parsed JSON body.  The system clock is passed explicitly as a
`PyDatetime` value.  Python code that can raise is modelled in
`Except String`; total Python functions become total Lean functions.
-/

inductive Json where
  | null : Json
  | bool (b : Bool) : Json
  | num (n : Int) : Json
  | str (s : String) : Json
  | arr (xs : List Json) : Json
  | obj (kvs : List (String × Json)) : Json

/-- First-match association lookup: Python `dict.get` (dict keys are unique,
so first match is the match). -/
def lookupKey : List (String × Json) → String → Option Json
  | [], _ => none
  | (k, v) :: rest, key => if k == key then some v else lookupKey rest key

/-- `d.get(key)` — `none` models Python `None`. Non-dict values have no keys. -/
def Json.getKey : Json → String → Option Json
  | .obj kvs, key => lookupKey kvs key
  | _, _ => none

mutual
/-- `json.dumps` with its default separators `", "` and `": "`.
String escaping is not modelled (no string in this program needs it). -/
def Json.dumps : Json → String
  | .null => "null"
  | .bool true => "true"
  | .bool false => "false"
  | .num n => toString n
  | .str s => "\"" ++ s ++ "\""
  | .arr xs => "[" ++ dumpsArr xs ++ "]"
  | .obj kvs => "\x7b" ++ dumpsObj kvs ++ "\x7d"

def dumpsArr : List Json → String
  | [] => ""
  | [x] => Json.dumps x
  | x :: y :: rest => Json.dumps x ++ ", " ++ dumpsArr (y :: rest)

def dumpsObj : List (String × Json) → String
  | [] => ""
  | [(k, v)] => "\"" ++ k ++ "\": " ++ Json.dumps v
  | (k, v) :: p :: rest => "\"" ++ k ++ "\": " ++ Json.dumps v ++ ", " ++ dumpsObj (p :: rest)
end

/-- Python truthiness of a JSON value (`if not x`): `None`, `False`, `0`,
`""`, `[]` and `\x7b\x7d` are falsy. -/
def jsonFalsy : Json → Bool
  | .null => true
  | .bool b => !b
  | .num n => n == 0
  | .str s => s == ""
  | .arr xs => xs.isEmpty
  | .obj kvs => kvs.isEmpty

/-- An aware UTC `datetime.datetime` value, as read by
`datetime.now(timezone.utc)`. -/
structure PyDatetime where
  year : Nat
  month : Nat
  day : Nat
  hour : Nat
  minute : Nat
  second : Nat
  microsecond : Nat

def pad2 (n : Nat) : String :=
  if n < 10 then "0" ++ toString n else toString n

def pad4 (n : Nat) : String :=
  if n < 10 then "000" ++ toString n
  else if n < 100 then "00" ++ toString n
  else if n < 1000 then "0" ++ toString n
  else toString n

def pad6 (n : Nat) : String :=
  if n < 10 then "00000" ++ toString n
  else if n < 100 then "0000" ++ toString n
  else if n < 1000 then "000" ++ toString n
  else if n < 10000 then "00" ++ toString n
  else if n < 100000 then "0" ++ toString n
  else toString n

/-- The date-time part of `datetime.isoformat()`:
`YYYY-MM-DDTHH:MM:SS`, plus `.ffffff` exactly when `microsecond` is nonzero. -/
def python_isoformat_base (d : PyDatetime) : String :=
  pad4 d.year ++ "-" ++ pad2 d.month ++ "-" ++ pad2 d.day ++ "T" ++
    pad2 d.hour ++ ":" ++ pad2 d.minute ++ ":" ++ pad2 d.second ++
    (if d.microsecond == 0 then "" else "." ++ pad6 d.microsecond)

/-- `datetime.now(timezone.utc).isoformat()`: an aware datetime appends its
UTC offset `+00:00`. -/
def python_isoformat (d : PyDatetime) : String :=
  python_isoformat_base d ++ "+00:00"

/-- The string the server stores under `current_time_utc`:
`datetime.now(timezone.utc).isoformat() + "Z"` (mcp_time_server.py line 178). -/
def current_time_utc (d : PyDatetime) : String :=
  python_isoformat d ++ "Z"

/-- Python `str()` of the value held in `tool_name` as used by the f-string
`f"Tool \x27\x7btool_name\x7d\x27 ..."`: `None` prints as `"None"`, a string prints
itself.  (Other JSON values cannot reach the f-string with a different
`str()` in a way any claim observes; `dumps` is used as a stand-in.) -/
def pyStrOfName : Option Json → String
  | none => "None"
  | some (.str s) => s
  | some j => Json.dumps j

/-- The JSON value serialized back for the `tool_name` field of the server
response (FastAPI serializes Python `None` as JSON `null`). -/
def jsonOfName : Option Json → Json
  | none => .null
  | some j => j

/-- The Python comparison `tool_name == "get_current_time"` (true only when
`tool_name` is that exact string). -/
def isGetCurrentTime : Option Json → Bool
  | some (.str s) => s == "get_current_time"
  | _ => false

/-- `POST /mcp/v1/call` handler `call_tool` of mcp_time_server.py.  The
system clock read `datetime.now(timezone.utc)` is passed in as `now`.
Total: no code path raises. -/
def call_tool (now : PyDatetime) (tool_call : Json) : Json :=
  let tool_name := tool_call.getKey "tool_name"
  let _tool_args := (tool_call.getKey "arguments").getD (.obj [])
  if isGetCurrentTime tool_name then
    .obj [("tool_name", jsonOfName tool_name),
          ("output", .obj [("current_time_utc", .str (current_time_utc now))])]
  else
    .obj [("tool_name", jsonOfName tool_name),
          ("error", .str ("Tool \x27" ++ pyStrOfName tool_name ++
            "\x27 not found or supported by this server."))]

/-- The parameter schema published for `get_current_time`
(mcp_time_server.py lines 198-202). -/
def time_tool_parameters : Json :=
  .obj [("type", .str "object"), ("properties", .obj []), ("required", .arr [])]

def time_tool_definition : Json :=
  .obj [("name", .str "get_current_time"),
        ("description", .str "Get the current time in UTC. Useful for answering questions about the current time or date."),
        ("parameters", time_tool_parameters)]

/-- `GET /mcp/v1/tools` handler of mcp_time_server.py. -/
def get_tools_definition : Json :=
  .obj [("tools", .arr [time_tool_definition])]

/-!  The client's network model. -/

/-- Outcome of one `requests` call: a raised `RequestException` (connection
error, timeout, ...) or an HTTP response with status code and parsed JSON
body.  (The reason phrase and URL that `requests` embeds in its error
strings are not modelled; only the status-derived message matters here.) -/
inductive Transport where
  | netError (msg : String)
  | response (status : Nat) (body : Json)

/-- `response.raise_for_status()`: raises `requests.exceptions.HTTPError`
exactly for status codes 400-599, with a status-dependent message. -/
def http_error_msg (status : Nat) : Option String :=
  if 400 ≤ status ∧ status < 500 then some (toString status ++ " Client Error")
  else if 500 ≤ status ∧ status < 600 then some (toString status ++ " Server Error")
  else none

/-- A transport outcome the `except requests.exceptions.RequestException`
clause fires on: a raised network error, or a 4xx/5xx response (via
`raise_for_status`). -/
def isTransportFailure : Transport → Bool
  | .netError _ => true
  | .response status _ => (http_error_msg status).isSome

/-- The `str(e)` of the exception a failing transport produces. -/
def transport_failure_str : Transport → String
  | .netError e => e
  | .response status _ => (http_error_msg status).getD ""

/-- `get_mcp_tool_definitions` of mcp_ollama_client.py: on success returns
`response.json().get("tools", [])`; on any `RequestException` (including
`raise_for_status` on 4xx/5xx) returns `[]`. -/
def get_mcp_tool_definitions (t : Transport) : Json :=
  match t with
  | .netError _ => .arr []
  | .response status body =>
    match http_error_msg status with
    | some _ => .arr []
    | none => (body.getKey "tools").getD (.arr [])

/-- `call_mcp_server_tool` of mcp_ollama_client.py: POSTs the payload; a
raised `RequestException` (including HTTP 4xx/5xx via `raise_for_status`)
is caught and returned in-band as a dict with an `"error"` key; otherwise
the parsed response body is returned as-is.  Total: no code path raises. -/
def call_mcp_server_tool (tool_name : String) (arguments : Json) (t : Transport) : Json :=
  match t with
  | .netError e =>
    .obj [("tool_name", .str tool_name), ("error", .str e)]
  | .response status body =>
    match http_error_msg status with
    | some e => .obj [("tool_name", .str tool_name), ("error", .str e)]
    | none => body

/-!  The orchestrator `chat_with_ollama_and_tools`. -/

/-- One tool-call intent as found in the Ollama response
(`tool_call['function']['name']`, `tool_call['function']['arguments']`,
and `tool_call.get('id', str(uuid.uuid4()))` — `id` is `none` when the
model omitted it). -/
structure OToolCall where
  id : Option String
  name : String
  arguments : Json

/-- The `message` part of an Ollama chat response: text content plus the
`tool_calls` list (`None` and `[]` are both falsy in the code's
`if tool_calls:` test, so both are modelled as `[]`). -/
structure OMessage where
  content : String
  tool_calls : List OToolCall

/-- A message appended to the `messages` conversation history. -/
inductive ChatMsg where
  | system (content : String)
  | user (content : String)
  | tool (tool_call_id : String) (content : String)
deriving DecidableEq

def isToolMsg : ChatMsg → Bool
  | .tool _ _ => true
  | _ => false

/-- The `call_id` a Tool message carries, if it is one. -/
def ChatMsg.callId : ChatMsg → Option String
  | .tool id _ => some id
  | _ => none

/-- `tool_call.get('id', str(uuid.uuid4()))`: the model's id when present,
otherwise the `idx`-th freshly generated uuid (the code draws one uuid per
processed intent; `fresh` is the uuid source). -/
def resolveId (fresh : Nat → String) (idx : Nat) (c : OToolCall) : String :=
  c.id.getD (fresh idx)

/-- Steps 6 of the loop body: turn one tool response dict into the Tool
message appended to `messages`.  `if "error" in ...` selects the error
branch; otherwise the code reads `tool_output_from_mcp_server['output']`
unguarded — a missing `"output"` key raises `KeyError`, modelled as
`.error`. -/
def handle_tool_output (id : String) (resp : Json) : Except String ChatMsg :=
  match resp.getKey "error" with
  | some e => .ok (.tool id (Json.dumps (.obj [("error", e)])))
  | none =>
    match resp.getKey "output" with
    | some out => .ok (.tool id (Json.dumps out))
    | none => .error "KeyError: \x27output\x27"

/-- The content the appended Tool message carries, given the response
dict (defined for responses carrying an `"error"` or `"output"` key). -/
def toolMsgContent (resp : Json) : String :=
  match resp.getKey "error" with
  | some e => Json.dumps (.obj [("error", e)])
  | none => Json.dumps ((resp.getKey "output").getD .null)

/-- The response dict the orchestrator sees for intent `c`:
`call_mcp_server_tool(tool_name, tool_arguments)` under network
behaviour `t`. -/
def respOf (t : String → Json → Transport) (c : OToolCall) : Json :=
  call_mcp_server_tool c.name c.arguments (t c.name c.arguments)

/-- A response dict the loop body can handle without raising. -/
def wellShaped (resp : Json) : Bool :=
  (resp.getKey "error").isSome || (resp.getKey "output").isSome

/-- The `for tool_call in tool_calls:` body, in emitted order: one
`call_mcp_server_tool` and one appended Tool message per intent.  `idx`
indexes the uuid source (one fresh uuid per processed intent); a raised
`KeyError` aborts the whole chat (`.error`). -/
def dispatchTools (t : String → Json → Transport) (fresh : Nat → String) :
    Nat → List OToolCall → Except String (List ChatMsg)
  | _, [] => .ok []
  | idx, c :: cs =>
    match handle_tool_output (resolveId fresh idx c) (respOf t c) with
    | .error e => .error e
    | .ok m =>
      match dispatchTools t fresh (idx + 1) cs with
      | .error e => .error e
      | .ok ms => .ok (m :: ms)

/-- Pure value of `dispatchTools` on well-shaped responses. -/
def dispatchPure (t : String → Json → Transport) (fresh : Nat → String) :
    Nat → List OToolCall → List ChatMsg
  | _, [] => []
  | idx, c :: cs =>
    .tool (resolveId fresh idx c) (toolMsgContent (respOf t c)) ::
      dispatchPure t fresh (idx + 1) cs

/-- Outcome of `chat_with_ollama_and_tools`.  `finalAnswer = none` means
the fuel ran out with the `while True:` loop still running (the code
itself has no way to stop once the model keeps requesting tools).
`modelTurns` counts `ollama.chat` invocations, `toolDispatches` counts
`call_mcp_server_tool` invocations. -/
structure ChatResult where
  finalAnswer : Option String
  transcript : List ChatMsg
  modelTurns : Nat
  toolDispatches : Nat
deriving DecidableEq

/-- The `while True:` loop of `chat_with_ollama_and_tools`.  `oracle`
models `ollama.chat` (first argument: the `tools` parameter, `none` when
the code omits it); `fuel` bounds the number of modelled iterations and is
a device of the embedding, not of the code. -/
def chatLoop (tools : Json) (oracle : Option Json → List ChatMsg → OMessage)
    (t : String → Json → Transport) (fresh : Nat → String) :
    Nat → Nat → Nat → Nat → List ChatMsg → Except String ChatResult
  | 0, _, turns, disp, msgs => .ok ⟨none, msgs, turns, disp⟩
  | fuel + 1, idx, turns, disp, msgs =>
    let response := oracle (some tools) msgs
    match response.tool_calls with
    | [] => .ok ⟨some response.content, msgs, turns + 1, disp⟩
    | c :: cs =>
      match dispatchTools t fresh idx (c :: cs) with
      | .error e => .error e
      | .ok ms =>
        chatLoop tools oracle t fresh fuel (idx + (c :: cs).length)
          (turns + 1) (disp + (c :: cs).length) (msgs ++ ms)

/-- The system message content (its fixed text plus
`json.dumps(mcp_tool_definitions)`). -/
def system_message_content (defs : Json) : String :=
  "You are a helpful assistant.\n" ++
  "You have access to tools to help answer user questions.\n" ++
  "Specifically, you can use the \x27get_current_time\x27 tool to find out the current time in UTC.\n" ++
  "When a user asks a question about the current time or date,\n" ++
  "you MUST respond by calling the \x27get_current_time\x27 tool.\n" ++
  "Otherwise, answer normally.\n" ++
  "Here are the tool definitions: " ++ Json.dumps defs ++ "\n"

/-- `chat_with_ollama_and_tools` of mcp_ollama_client.py.  `discovery` is
the transport outcome of the `GET /mcp/v1/tools` request, `t` the network
behaviour of tool calls, `oracle` the model, `fresh` the uuid source.
The printed final answer is modelled as `finalAnswer`. -/
def chat_with_ollama_and_tools (discovery : Transport)
    (oracle : Option Json → List ChatMsg → OMessage)
    (t : String → Json → Transport) (fresh : Nat → String)
    (fuel : Nat) (user_prompt : String) : Except String ChatResult :=
  let mcp_tool_definitions := get_mcp_tool_definitions discovery
  if jsonFalsy mcp_tool_definitions then
    let messages := [ChatMsg.user user_prompt]
    let response := oracle none messages
    .ok ⟨some response.content, messages, 1, 0⟩
  else
    let messages := [ChatMsg.system (system_message_content mcp_tool_definitions),
                     ChatMsg.user user_prompt]
    chatLoop mcp_tool_definitions oracle t fresh fuel 0 0 0 messages

/-!  A well-formedness checker for ISO-8601 UTC `Z` timestamps, used to
settle the claim about `current_time_utc`. -/

/-- Characters that may occur in `YYYY-MM-DDTHH:MM:SS[.ffffff]Z`. -/
def isIsoChar (c : Char) : Bool :=
  c.isDigit || c == '-' || c == ':' || c == '.' || c == 'T' || c == 'Z'

/-- Consume exactly `n` decimal digits. -/
def digitsN : Nat → List Char → Option (List Char)
  | 0, cs => some cs
  | _ + 1, [] => none
  | n + 1, c :: cs => if c.isDigit then digitsN n cs else none

/-- Consume exactly the character `ch`. -/
def litChar (ch : Char) : List Char → Option (List Char)
  | [] => none
  | c :: cs => if c == ch then some cs else none

/-- After `YYYY-MM-DDTHH:MM:SS`: either `Z` alone or a fraction
`.d+` followed by `Z`, ending the string. -/
def isoTail : List Char → Bool
  | ['Z'] => true
  | '.' :: cs =>
    let ds := cs.takeWhile Char.isDigit
    let rest := cs.dropWhile Char.isDigit
    !ds.isEmpty && rest == ['Z']
  | _ => false

/-- `true` exactly on well-formed ISO-8601 UTC timestamps of the form
`YYYY-MM-DDTHH:MM:SS[.ffffff]Z`: the positional grammar must parse and
(redundantly but conveniently) every character must be legal for that
form — in particular no `+`/offset designator may occur. -/
def isIso8601UtcZ (s : String) : Bool :=
  (match (((((((((((digitsN 4 s.data).bind (litChar '-')).bind
      (digitsN 2)).bind (litChar '-')).bind (digitsN 2)).bind
      (litChar 'T')).bind (digitsN 2)).bind (litChar ':')).bind
      (digitsN 2)).bind (litChar ':')).bind (digitsN 2)) with
   | some rest => isoTail rest
   | none => false) && s.data.all isIsoChar

/-!  A conformance checker for the published parameter schema (JSON-Schema
`type` and `required` keywords, the ones the schema uses). -/

def hasKey (j : Json) (k : String) : Bool :=
  (j.getKey k).isSome

/-- Does `v` conform to `schema`?  Checks the `"type": "object"` and
`"required"` keywords — all the published `time_tool_parameters` schema
constrains. -/
def conformsTo (schema v : Json) : Bool :=
  (match schema.getKey "type" with
   | some (.str "object") => (match v with | .obj _ => true | _ => false)
   | _ => true) &&
  (match schema.getKey "required" with
   | some (.arr reqs) =>
     reqs.all (fun r => match r with | .str k => hasKey v k | _ => true)
   | _ => true)

/-!  Concrete fixtures used to instantiate the theorems below. -/

/-- A concrete injective uuid source (stands in for `uuid.uuid4()`;
collision-freeness of uuid4 is the assumption the code relies on). -/
def fresh0 (n : Nat) : String :=
  String.mk (List.replicate n 'a')

/-- A concrete clock reading: 2026-10-12 12:34:56.789012 UTC. -/
def d0 : PyDatetime :=
  ⟨2026, 10, 12, 12, 34, 56, 789012⟩

/-- A network on which every request raises a connection error. -/
def refuseTransport : String → Json → Transport :=
  fun _ _ => .netError "Connection refused"

/-- A network that routes every `POST /mcp/v1/call` to the real
`call_tool` handler of mcp_time_server.py, at clock `d0`. -/
def serverTransport : String → Json → Transport :=
  fun name args =>
    .response 200 (call_tool d0 (.obj [("tool_name", .str name), ("arguments", args)]))

/-- A discovery request answered by the real `GET /mcp/v1/tools` handler. -/
def okDiscovery : Transport :=
  .response 200 get_tools_definition

/-- A model that answers in plain text, never requesting tools. -/
def plainOracle : Option Json → List ChatMsg → OMessage :=
  fun _ _ => ⟨"plain text answer", []⟩

/-- A model that requests `get_current_time` on every single turn and
never converges to a text answer. -/
def alwaysCallOracle : Option Json → List ChatMsg → OMessage :=
  fun _ _ => ⟨"", [⟨none, "get_current_time", .obj []⟩]⟩

/-- The intents of the two-intent turn used to instantiate the dispatch
theorem: one with a model-assigned id, one with the id omitted. -/
def twoIntents : List OToolCall :=
  [⟨some "call-1", "get_current_time", .obj []⟩,
   ⟨none, "get_current_time", .obj []⟩]

/-- A model whose first turn requests the unknown tool `delete_universe`
and whose next turn acknowledges the failure (spec Scenario C). -/
def scenarioCOracle : Option Json → List ChatMsg → OMessage :=
  fun _ msgs =>
    if msgs.length == 2 then ⟨"", [⟨some "call-9", "delete_universe", .obj []⟩]⟩
    else ⟨"that tool failed", []⟩

/-- The initial message list the tool-using path builds. -/
def initMessages (defs : Json) (user_prompt : String) : List ChatMsg :=
  [ChatMsg.system (system_message_content defs), ChatMsg.user user_prompt]

/-- The runaway conversation: real discovery, a model that never stops
requesting tools, every tool call refused by the network. -/
def c9Run (fuel : Nat) : Except String ChatResult :=
  chat_with_ollama_and_tools okDiscovery alwaysCallOracle refuseTransport fresh0 fuel
    "What time is it right now?"

/-- Does the runaway conversation reach any terminal outcome (a final
answer, or an abort) within `fuel` loop iterations? -/
def terminatesWithin (fuel : Nat) : Bool :=
  match c9Run fuel with
  | .error _ => true
  | .ok r => r.finalAnswer.isSome

/-- The claim that the turn loop imposes a maximum turn count: after
enough iterations the runaway conversation reaches a terminal outcome. -/
def turn_loop_has_turn_limit : Prop :=
  ∃ fuel, terminatesWithin fuel = true

/-- A tool response carrying both an `"error"` and an `"output"` key. -/
def respBothKeys : Json :=
  .obj [("error", .str "boom"), ("output", .str "ignored")]

/-- A tool response carrying neither an `"error"` nor an `"output"` key. -/
def respNeitherKey : Json :=
  .obj [("result", .str "odd shape")]

/-- The tool definitions the client obtains from a working server. -/
def c9Tools : Json :=
  get_mcp_tool_definitions okDiscovery

/-- A model that emits the two intents of `twoIntents` on every turn. -/
def twoIntentOracle : Option Json → List ChatMsg → OMessage :=
  fun _ _ => ⟨"", twoIntents⟩

/-!  Helper lemmas (shared; none of them is a claim theorem). -/

theorem fresh0_injective : Function.Injective fresh0 := by
  intro a b h
  have := congrArg String.length h
  simpa [fresh0] using this

theorem string_data_append (a b : String) : (a ++ b).data = a.data ++ b.data :=
  String.data_append a b

theorem handle_tool_output_ok (id : String) (resp : Json) (h : wellShaped resp = true) :
    handle_tool_output id resp = .ok (.tool id (toolMsgContent resp)) := by
  unfold wellShaped at h
  cases hget : resp.getKey "error" with
  | some e => simp [handle_tool_output, toolMsgContent, hget]
  | none =>
    rw [hget] at h
    simp only [Option.isSome_none, Bool.false_or] at h
    obtain ⟨o, ho⟩ := Option.isSome_iff_exists.mp h
    simp [handle_tool_output, toolMsgContent, hget, ho]

theorem dispatch_eq_pure (t : String → Json → Transport) (fresh : Nat → String) :
    ∀ (cs : List OToolCall) (idx : Nat),
      (∀ c ∈ cs, wellShaped (respOf t c) = true) →
      dispatchTools t fresh idx cs = .ok (dispatchPure t fresh idx cs) := by
  intro cs
  induction cs with
  | nil => intro idx _; rfl
  | cons c rest ih =>
    intro idx h
    have hc := h c (List.mem_cons_self c rest)
    have hrest := ih (idx + 1) (fun x hx => h x (List.mem_cons_of_mem c hx))
    simp [dispatchTools, dispatchPure, handle_tool_output_ok _ _ hc, hrest]

theorem dispatchPure_length (t : String → Json → Transport) (fresh : Nat → String) :
    ∀ (cs : List OToolCall) (idx : Nat),
      (dispatchPure t fresh idx cs).length = cs.length := by
  intro cs
  induction cs with
  | nil => intro idx; rfl
  | cons c rest ih => intro idx; simp [dispatchPure, ih]

theorem dispatchPure_getElem (t : String → Json → Transport) (fresh : Nat → String) :
    ∀ (cs : List OToolCall) (idx i : Nat) (c : OToolCall),
      cs[i]? = some c →
      (dispatchPure t fresh idx cs)[i]? =
        some (ChatMsg.tool (resolveId fresh (idx + i) c) (toolMsgContent (respOf t c))) := by
  intro cs
  induction cs with
  | nil => intro idx i c h; simp at h
  | cons hd rest ih =>
    intro idx i c h
    cases i with
    | zero =>
      simp only [List.getElem?_cons_zero, Option.some.injEq] at h
      subst h
      simp [dispatchPure]
    | succ i =>
      simp only [List.getElem?_cons_succ] at h
      have := ih (idx + 1) i c h
      have harith : idx + 1 + i = idx + (i + 1) := by omega
      simp only [dispatchPure, List.getElem?_cons_succ, this, harith]

theorem getDefs_empty_of_failure (t : Transport) (h : isTransportFailure t = true) :
    get_mcp_tool_definitions t = .arr [] := by
  cases t with
  | netError e => rfl
  | response status body =>
    simp only [isTransportFailure] at h
    obtain ⟨e, he⟩ := Option.isSome_iff_exists.mp h
    simp [get_mcp_tool_definitions, he]

/-- C3: every transport failure — raised network error or HTTP 4xx/5xx —
is returned by `call_mcp_server_tool` as an in-band dict carrying the
stringified failure under `"error"`; the function is total, so no network
fault escapes as an unhandled exception. -/
theorem c3_transport_failure_in_band (name : String) (args : Json) (t : Transport)
    (h : isTransportFailure t = true) :
    call_mcp_server_tool name args t =
      .obj [("tool_name", .str name), ("error", .str (transport_failure_str t))] ∧
    (call_mcp_server_tool name args t).getKey "error" =
      some (.str (transport_failure_str t)) := by
  cases t with
  | netError e => exact ⟨rfl, rfl⟩
  | response status body =>
    simp only [isTransportFailure] at h
    obtain ⟨e, he⟩ := Option.isSome_iff_exists.mp h
    refine ⟨?_, ?_⟩ <;>
      simp [call_mcp_server_tool, transport_failure_str, he, Json.getKey, lookupKey]

theorem c3_transport_failure_in_band_witness :
    call_mcp_server_tool "get_current_time" (.obj []) (.response 404 .null) =
      .obj [("tool_name", .str "get_current_time"),
            ("error", .str (transport_failure_str (.response 404 .null)))] ∧
    (call_mcp_server_tool "get_current_time" (.obj []) (.response 404 .null)).getKey "error" =
      some (.str (transport_failure_str (.response 404 .null))) :=
  c3_transport_failure_in_band "get_current_time" (.obj []) (.response 404 .null) (by decide)

/-- C4: for every payload whose `tool_name` is not `"get_current_time"`
(the only registered tool), `call_tool` returns the in-band
`"error": "Tool ... not found or supported by this server."` dict and no
`"output"`; the handler is total, so it never raises. -/
theorem c4_unknown_tool_err (now : PyDatetime) (payload : Json)
    (h : isGetCurrentTime (payload.getKey "tool_name") = false) :
    call_tool now payload =
      .obj [("tool_name", jsonOfName (payload.getKey "tool_name")),
            ("error", .str ("Tool \x27" ++ pyStrOfName (payload.getKey "tool_name") ++
              "\x27 not found or supported by this server."))] ∧
    (call_tool now payload).getKey "output" = none := by
  have hbranch : call_tool now payload =
      .obj [("tool_name", jsonOfName (payload.getKey "tool_name")),
            ("error", .str ("Tool \x27" ++ pyStrOfName (payload.getKey "tool_name") ++
              "\x27 not found or supported by this server."))] := by
    simp [call_tool, h]
  exact ⟨hbranch, by rw [hbranch]; rfl⟩

theorem c4_unknown_tool_err_witness :
    call_tool d0 (.obj [("tool_name", .str "delete_universe")]) =
      .obj [("tool_name", jsonOfName ((Json.obj [("tool_name", .str "delete_universe")]).getKey "tool_name")),
            ("error", .str ("Tool \x27" ++
              pyStrOfName ((Json.obj [("tool_name", .str "delete_universe")]).getKey "tool_name") ++
              "\x27 not found or supported by this server."))] ∧
    (call_tool d0 (.obj [("tool_name", .str "delete_universe")])).getKey "output" = none :=
  c4_unknown_tool_err d0 (.obj [("tool_name", .str "delete_universe")]) (by decide)

/-- C6 counterexample: a transport failure during discovery and a
successful discovery of a valid empty tool list both make
`get_mcp_tool_definitions` return the very same value `[]`, so the error
return is not distinguishable from a valid empty result. -/
theorem c6_cex_error_equals_empty :
    get_mcp_tool_definitions (.netError "connection refused") = .arr [] ∧
    get_mcp_tool_definitions (.response 200 (.obj [("tools", .arr [])])) = .arr [] ∧
    get_mcp_tool_definitions (.netError "connection refused") =
      get_mcp_tool_definitions (.response 200 (.obj [("tools", .arr [])])) :=
  ⟨rfl, rfl, rfl⟩

/-- C6 amended: on every transport failure, `get_mcp_tool_definitions`
catches the exception (it is total, so it never raises) and returns the
empty list — the same value as a successful empty discovery, not a
distinguishable error value. -/
theorem c6_amended_failure_returns_empty (t : Transport)
    (h : isTransportFailure t = true) :
    get_mcp_tool_definitions t = .arr [] :=
  getDefs_empty_of_failure t h

theorem c6_amended_failure_returns_empty_witness :
    get_mcp_tool_definitions (.netError "connection refused") = .arr [] :=
  c6_amended_failure_returns_empty (.netError "connection refused") rfl

/-- C8 counterexample: the JSON number `5` does not conform to the
published parameter schema of `get_current_time` (which requires an
object), yet `call_tool` executes the tool and returns the success
result — no validation `Err` is produced. -/
theorem c8_cex_nonconforming_args_succeed :
    conformsTo time_tool_parameters (.num 5) = false ∧
    (call_tool d0 (.obj [("tool_name", .str "get_current_time"),
      ("arguments", .num 5)])).getKey "error" = none ∧
    ((call_tool d0 (.obj [("tool_name", .str "get_current_time"),
      ("arguments", .num 5)])).getKey "output").isSome = true :=
  ⟨rfl, rfl, rfl⟩

/-- C8 amended: the registry performs no argument validation at all —
for every arguments value, conforming to the parameter schema or not,
invoking `get_current_time` ignores the arguments and returns the success
result; malformed arguments never yield an `Err`. -/
theorem c8_amended_no_validation (now : PyDatetime) (args : Json) :
    ((call_tool now (.obj [("tool_name", .str "get_current_time"),
      ("arguments", args)])).getKey "output").isSome = true ∧
    (call_tool now (.obj [("tool_name", .str "get_current_time"),
      ("arguments", args)])).getKey "error" = none :=
  ⟨rfl, rfl⟩

/-- C2: when discovery fails or yields an empty tool list, the orchestrator
runs exactly one model turn with no tool schemas (the `tools` parameter is
omitted), dispatches no tools, appends no Tool messages, and completes
normally with the model's text as the final answer. -/
theorem c2_degraded_single_turn
    (d : Transport) (oracle : Option Json → List ChatMsg → OMessage)
    (t : String → Json → Transport) (fresh : Nat → String) (fuel : Nat) (p : String)
    (h : isTransportFailure d = true ∨ get_mcp_tool_definitions d = .arr []) :
    chat_with_ollama_and_tools d oracle t fresh fuel p =
      .ok ⟨some ((oracle none [ChatMsg.user p]).content), [ChatMsg.user p], 1, 0⟩ ∧
    ∀ m ∈ [ChatMsg.user p], isToolMsg m = false := by
  have hdefs : jsonFalsy (get_mcp_tool_definitions d) = true := by
    rcases h with h | h
    · rw [getDefs_empty_of_failure d h]; rfl
    · rw [h]; rfl
  refine ⟨?_, by simp [isToolMsg]⟩
  simp [chat_with_ollama_and_tools, hdefs]

theorem c2_degraded_single_turn_witness :
    chat_with_ollama_and_tools (.netError "connection refused") plainOracle refuseTransport
        fresh0 0 "Tell me a short story about a brave knight." =
      .ok ⟨some ((plainOracle none
            [ChatMsg.user "Tell me a short story about a brave knight."]).content),
          [ChatMsg.user "Tell me a short story about a brave knight."], 1, 0⟩ ∧
    ∀ m ∈ [ChatMsg.user "Tell me a short story about a brave knight."],
      isToolMsg m = false :=
  c2_degraded_single_turn (.netError "connection refused") plainOracle refuseTransport
    fresh0 0 "Tell me a short story about a brave knight." (Or.inl rfl)

/-- The checker accepts canonical ISO-8601 UTC `Z` timestamps, with and
without a fractional part. -/
theorem isIso8601UtcZ_accepts_valid :
    isIso8601UtcZ "2026-10-12T12:34:56Z" = true ∧
    isIso8601UtcZ "2026-10-12T12:34:56.789012Z" = true := by
  constructor <;> decide

/-- C7: the server's `current_time_utc` string is never a well-formed
ISO-8601 UTC `Z` timestamp — `isoformat()` on an aware UTC datetime
already ends in the offset `+00:00`, so appending `"Z"` yields
`...+00:00Z` (two timezone designators). The second conjunct evaluates the
handler at the concrete clock reading 2026-10-12 12:34:56.789012 UTC. -/
theorem c7_timestamp_not_iso8601 :
    (∀ d : PyDatetime, isIso8601UtcZ (current_time_utc d) = false) ∧
    call_tool d0 (.obj [("tool_name", .str "get_current_time"), ("arguments", .obj [])]) =
      .obj [("tool_name", .str "get_current_time"),
            ("output", .obj [("current_time_utc",
              .str "2026-10-12T12:34:56.789012+00:00Z")])] := by
  constructor
  · intro d
    have hplus : ("+00:00" : String).data.all isIsoChar = false := by decide
    have hdata : (current_time_utc d).data =
        ((python_isoformat_base d).data ++ ("+00:00" : String).data) ++ ("Z" : String).data := by
      simp [current_time_utc, python_isoformat, string_data_append]
    have hall : (current_time_utc d).data.all isIsoChar = false := by
      rw [hdata, List.all_append, List.all_append, hplus]
      simp
    unfold isIso8601UtcZ
    rw [hall, Bool.and_false]
  · rfl

/-- C10: a tool response dict is classified as a failure iff it carries a
top-level `"error"` key (an `"output"` key alongside is ignored); with no
`"error"` key the `"output"` key is read unguarded, so a response with
neither key raises `KeyError` instead of appending a Tool message. -/
theorem c10_error_key_classification (c : OToolCall) (resp : Json)
    (fresh : Nat → String) (idx : Nat) :
    (∀ e, resp.getKey "error" = some e →
      dispatchTools (fun _ _ => .response 200 resp) fresh idx [c] =
        .ok [.tool (resolveId fresh idx c) (Json.dumps (.obj [("error", e)]))]) ∧
    (resp.getKey "error" = none → ∀ o, resp.getKey "output" = some o →
      dispatchTools (fun _ _ => .response 200 resp) fresh idx [c] =
        .ok [.tool (resolveId fresh idx c) (Json.dumps o)]) ∧
    (resp.getKey "error" = none → resp.getKey "output" = none →
      dispatchTools (fun _ _ => .response 200 resp) fresh idx [c] =
        .error "KeyError: \x27output\x27") := by
  have hresp : respOf (fun _ _ => .response 200 resp) c = resp := rfl
  refine ⟨?_, ?_, ?_⟩
  · intro e he
    simp [dispatchTools, hresp, handle_tool_output, he]
  · intro he o ho
    simp [dispatchTools, hresp, handle_tool_output, he, ho]
  · intro he ho
    simp [dispatchTools, hresp, handle_tool_output, he, ho]

theorem c10_error_key_classification_witness :
    dispatchTools (fun _ _ => .response 200 respBothKeys) fresh0 0
        [⟨some "id-0", "x", .obj []⟩] =
      .ok [.tool "id-0" (Json.dumps (.obj [("error", .str "boom")]))] ∧
    dispatchTools (fun _ _ => .response 200 respNeitherKey) fresh0 0
        [⟨some "id-0", "x", .obj []⟩] =
      .error "KeyError: \x27output\x27" :=
  ⟨(c10_error_key_classification ⟨some "id-0", "x", .obj []⟩ respBothKeys fresh0 0).1
      (.str "boom") rfl,
   (c10_error_key_classification ⟨some "id-0", "x", .obj []⟩ respNeitherKey fresh0 0).2.2
      rfl rfl⟩

/-- C1: in a turn where the model emits the intents `cs` (and the tool
responses are well-shaped, i.e. handleable), the orchestrator appends
exactly `cs.length` Tool messages before the next model invocation, one
per intent in emitted order, the `i`-th carrying the `i`-th intent's
`call_id` (the model's id when present, a fresh uuid otherwise), and —
given an injective uuid source — the synthesized ids are pairwise
distinct within the turn. -/
theorem c1_one_tool_msg_per_intent
    (tools : Json) (oracle : Option Json → List ChatMsg → OMessage)
    (t : String → Json → Transport) (fresh : Nat → String)
    (fuel idx turns disp : Nat) (msgs : List ChatMsg)
    (content : String) (cs : List OToolCall)
    (hemit : oracle (some tools) msgs = ⟨content, cs⟩)
    (hcs : cs ≠ [])
    (hshape : ∀ c ∈ cs, wellShaped (respOf t c) = true)
    (hfresh : Function.Injective fresh) :
    dispatchTools t fresh idx cs = .ok (dispatchPure t fresh idx cs) ∧
    (dispatchPure t fresh idx cs).length = cs.length ∧
    (∀ i, i < cs.length → ∃ c, cs[i]? = some c ∧
      (dispatchPure t fresh idx cs)[i]? =
        some (ChatMsg.tool (resolveId fresh (idx + i) c) (toolMsgContent (respOf t c)))) ∧
    (∀ i j c c', i ≠ j → cs[i]? = some c → cs[j]? = some c' →
      c.id = none → c'.id = none →
      resolveId fresh (idx + i) c ≠ resolveId fresh (idx + j) c') ∧
    chatLoop tools oracle t fresh (fuel + 1) idx turns disp msgs =
      chatLoop tools oracle t fresh fuel (idx + cs.length) (turns + 1)
        (disp + cs.length) (msgs ++ dispatchPure t fresh idx cs) := by
  have hdisp := dispatch_eq_pure t fresh cs idx hshape
  refine ⟨hdisp, dispatchPure_length t fresh cs idx, ?_, ?_, ?_⟩
  · intro i hi
    have hc : cs[i]? = some cs[i] := List.getElem?_eq_getElem hi
    exact ⟨cs[i], hc, dispatchPure_getElem t fresh cs idx i cs[i] hc⟩
  · intro i j c c' hij hc hc' hcid hcid'
    simp only [resolveId, hcid, hcid', Option.getD_none]
    intro heq
    exact hij (Nat.add_left_cancel (hfresh heq))
  · cases cs with
    | nil => exact absurd rfl hcs
    | cons c rest =>
      simp only [chatLoop, hemit, hdisp, List.length_cons]

theorem c1_one_tool_msg_per_intent_witness :
    dispatchTools refuseTransport fresh0 0 twoIntents =
      .ok (dispatchPure refuseTransport fresh0 0 twoIntents) ∧
    (dispatchPure refuseTransport fresh0 0 twoIntents).length = twoIntents.length ∧
    (∀ i, i < twoIntents.length → ∃ c, twoIntents[i]? = some c ∧
      (dispatchPure refuseTransport fresh0 0 twoIntents)[i]? =
        some (ChatMsg.tool (resolveId fresh0 (0 + i) c)
          (toolMsgContent (respOf refuseTransport c)))) ∧
    (∀ i j c c', i ≠ j → twoIntents[i]? = some c → twoIntents[j]? = some c' →
      c.id = none → c'.id = none →
      resolveId fresh0 (0 + i) c ≠ resolveId fresh0 (0 + j) c') ∧
    chatLoop c9Tools twoIntentOracle refuseTransport fresh0 (0 + 1) 0 0 0
        [ChatMsg.user "hi"] =
      chatLoop c9Tools twoIntentOracle refuseTransport fresh0 0 (0 + twoIntents.length)
        (0 + 1) (0 + twoIntents.length)
        ([ChatMsg.user "hi"] ++ dispatchPure refuseTransport fresh0 0 twoIntents) :=
  c1_one_tool_msg_per_intent c9Tools twoIntentOracle refuseTransport fresh0 0 0 0 0
    [ChatMsg.user "hi"] "" twoIntents rfl (List.cons_ne_nil _ _) (by decide)
    fresh0_injective

/-- C5: a turn whose single tool call comes back with an `"error"` key is
not fatal: the orchestrator appends a Tool message whose content is the
serialized error, re-invokes the model, and the conversation completes
normally with the next text answer. -/
theorem c5_tool_error_not_fatal
    (tools : Json) (oracle : Option Json → List ChatMsg → OMessage)
    (t : String → Json → Transport) (fresh : Nat → String)
    (fuel idx turns disp : Nat) (msgs : List ChatMsg)
    (c : OToolCall) (content finalText : String) (e : Json)
    (hemit : oracle (some tools) msgs = ⟨content, [c]⟩)
    (herr : (respOf t c).getKey "error" = some e)
    (hnext : oracle (some tools)
        (msgs ++ [ChatMsg.tool (resolveId fresh idx c)
          (Json.dumps (.obj [("error", e)]))]) = ⟨finalText, []⟩) :
    chatLoop tools oracle t fresh (fuel + 2) idx turns disp msgs =
      .ok ⟨some finalText,
           msgs ++ [ChatMsg.tool (resolveId fresh idx c)
             (Json.dumps (.obj [("error", e)]))],
           turns + 2, disp + 1⟩ := by
  have hstep1 : chatLoop tools oracle t fresh (fuel + 2) idx turns disp msgs =
      chatLoop tools oracle t fresh (fuel + 1) (idx + 1) (turns + 1) (disp + 1)
        (msgs ++ [ChatMsg.tool (resolveId fresh idx c)
          (Json.dumps (.obj [("error", e)]))]) := by
    simp only [chatLoop, hemit]
    simp [dispatchTools, handle_tool_output, herr]
  rw [hstep1]
  simp only [chatLoop, hnext]

theorem c5_tool_error_not_fatal_witness :
    chatLoop c9Tools scenarioCOracle serverTransport fresh0 2 0 0 0
        (initMessages c9Tools "please delete the universe") =
      .ok ⟨some "that tool failed",
           initMessages c9Tools "please delete the universe" ++
             [ChatMsg.tool "call-9" (Json.dumps (.obj [("error",
               .str ("Tool \x27delete_universe\x27 not found or supported by this server."))]))],
           2, 1⟩ :=
  c5_tool_error_not_fatal c9Tools scenarioCOracle serverTransport fresh0 0 0 0 0
    (initMessages c9Tools "please delete the universe")
    ⟨some "call-9", "delete_universe", .obj []⟩ "" "that tool failed"
    (.str ("Tool \x27delete_universe\x27 not found or supported by this server."))
    rfl rfl rfl

theorem c9_loop_no_answer :
    ∀ (fuel idx turns disp : Nat) (msgs : List ChatMsg),
      ∃ tr, chatLoop c9Tools alwaysCallOracle refuseTransport fresh0 fuel idx turns disp msgs =
        .ok ⟨none, tr, turns + fuel, disp + fuel⟩ := by
  intro fuel
  induction fuel with
  | zero => intro idx turns disp msgs; exact ⟨msgs, rfl⟩
  | succ fuel ih =>
    intro idx turns disp msgs
    have hstep : chatLoop c9Tools alwaysCallOracle refuseTransport fresh0 (fuel + 1)
        idx turns disp msgs =
        chatLoop c9Tools alwaysCallOracle refuseTransport fresh0 fuel (idx + 1)
          (turns + 1) (disp + 1)
          (msgs ++ [ChatMsg.tool (fresh0 idx)
            (Json.dumps (.obj [("error", .str "Connection refused")]))]) := rfl
    obtain ⟨tr, htr⟩ := ih (idx + 1) (turns + 1) (disp + 1)
      (msgs ++ [ChatMsg.tool (fresh0 idx)
        (Json.dumps (.obj [("error", .str "Connection refused")]))])
    refine ⟨tr, ?_⟩
    rw [hstep, htr]
    have h1 : turns + 1 + fuel = turns + (fuel + 1) := by omega
    have h2 : disp + 1 + fuel = disp + (fuel + 1) := by omega
    rw [h1, h2]

theorem c9Run_never_done (fuel : Nat) :
    ∃ tr, c9Run fuel = .ok ⟨none, tr, fuel, fuel⟩ := by
  obtain ⟨tr, htr⟩ := c9_loop_no_answer fuel 0 0 0
    (initMessages c9Tools "What time is it right now?")
  refine ⟨tr, ?_⟩
  have hchat : c9Run fuel = chatLoop c9Tools alwaysCallOracle refuseTransport fresh0
      fuel 0 0 0 (initMessages c9Tools "What time is it right now?") := rfl
  rw [hchat, htr]
  simp

/-- C9 counterexample: the turn loop has no turn bound at all — with a
model that keeps emitting tool-call intents, no number of loop iterations
makes the conversation reach any terminal outcome, so in particular no
`TurnLimitExceeded` outcome ever occurs. -/
theorem c9_cex_no_turn_limit : ¬ turn_loop_has_turn_limit := by
  rintro ⟨fuel, h⟩
  obtain ⟨tr, htr⟩ := c9Run_never_done fuel
  simp [terminatesWithin, htr] at h

/-- C9 amended: the `while True:` loop imposes no maximum turn count:
while the model keeps emitting tool-call intents the loop just keeps
iterating — after `fuel` model turns it has produced no final answer and
has dispatched one tool call per turn — and the code has no
`TurnLimitExceeded` outcome. -/
theorem c9_amended_loop_never_terminates (fuel : Nat) :
    ∃ tr, c9Run fuel = .ok ⟨none, tr, fuel, fuel⟩ :=
  c9Run_never_done fuel
